import Mathlib

/-!
Verification of the ocean-pulse data service core (apps/data-service/app).

The Python source is embedded shallowly:

* Python floats are modelled by exact semantics: the score calculator,
  the heatwave classifier and the fallback species estimator use only
  field arithmetic and are stated over any linear ordered field (used
  at ℚ, which contains every machine float, for executable witnesses);
  the climatology estimators and the Shannon index use sin/log and are
  stated over ℝ.
* Network calls are ambient inputs: each fetch result becomes an
  explicit Option-typed parameter of the embedded function.
* Fallible operations (Python ZeroDivisionError, math domain errors)
  are modelled with Option: a none result models a raised exception.
* datetime.utcnow() is passed explicitly (a day-of-year or an epoch
  second parameter).
-/

namespace OceanPulse

/-- Python int(x) on a float: truncation toward zero. -/
def pyInt {α : Type} [LinearOrderedField α] [FloorRing α] (x : α) : ℤ :=
  if x < 0 then ⌈x⌉ else ⌊x⌋

/-- Python round(x) to an integer: round half to even (bankers rounding). -/
def roundHalfEven {α : Type} [LinearOrderedField α] [FloorRing α] (x : α) : ℤ :=
  if x - ⌊x⌋ < 1 / 2 then ⌊x⌋
  else if 1 / 2 < x - ⌊x⌋ then ⌊x⌋ + 1
  else if Even ⌊x⌋ then ⌊x⌋ else ⌊x⌋ + 1

/-- Python round(x, k): round to k decimal places, half to even. -/
def pyRound {α : Type} [LinearOrderedField α] [FloorRing α] (k : ℕ) (x : α) : α :=
  ((roundHalfEven (x * 10 ^ k) : ℤ) : α) / 10 ^ k

/-- Python float division; none models a raised ZeroDivisionError. -/
def fdiv {α : Type} [LinearOrderedField α] (a b : α) : Option α :=
  if b = 0 then none else some (a / b)

theorem pyInt_nonneg {α : Type} [LinearOrderedField α] [FloorRing α]
    {x : α} (h : 0 ≤ x) : 0 ≤ pyInt x := by
  rw [pyInt, if_neg (not_lt.mpr h)]
  exact Int.floor_nonneg.mpr h

theorem pyInt_le_of_le {α : Type} [LinearOrderedField α] [FloorRing α]
    {x : α} {n : ℤ} (h : x ≤ (n : α)) : pyInt x ≤ n := by
  rw [pyInt]
  split
  · exact Int.ceil_le.mpr h
  · exact Int.cast_le.mp ((Int.floor_le x).trans h)

theorem le_pyInt_of_le {α : Type} [LinearOrderedField α] [FloorRing α]
    {x : α} {n : ℤ} (h : (n : α) ≤ x) : n ≤ pyInt x := by
  rw [pyInt]
  split
  · exact_mod_cast Int.cast_le.mp (h.trans (Int.le_ceil x))
  · exact Int.le_floor.mpr h

theorem pyInt_eq_floor_of_nonneg {α : Type} [LinearOrderedField α] [FloorRing α]
    {x : α} (h : 0 ≤ x) : pyInt x = ⌊x⌋ := by
  rw [pyInt, if_neg (not_lt.mpr h)]

theorem roundHalfEven_intCast {α : Type} [LinearOrderedField α] [FloorRing α]
    (m : ℤ) : roundHalfEven ((m : α)) = m := by
  rw [roundHalfEven, Int.floor_intCast]
  norm_num

theorem pyRound_idem {α : Type} [LinearOrderedField α] [FloorRing α]
    (k : ℕ) (x : α) : pyRound k (pyRound k x) = pyRound k x := by
  have h10 : ((10 : α) ^ k) ≠ 0 := pow_ne_zero _ (by norm_num)
  rw [pyRound, pyRound, div_mul_cancel₀ _ h10, roundHalfEven_intCast]

theorem pyRound_zero {α : Type} [LinearOrderedField α] [FloorRing α]
    (k : ℕ) : pyRound k (0 : α) = 0 := by
  rw [pyRound, zero_mul]
  have : roundHalfEven ((0 : α)) = (0 : ℤ) := by
    simpa using roundHalfEven_intCast (α := α) 0
  rw [this]
  simp

/-! Data model (app/models/health.py). The measurement timestamps are
irrelevant to every claim and are omitted from the records. -/

/-- EnvironmentalData (models/health.py): every field optional. -/
structure EnvironmentalData (α : Type) where
  sst : Option α
  sst_anomaly : Option α
  chlorophyll : Option α
  oxygen : Option α
  ph : Option α
  salinity : Option α
deriving DecidableEq

/-- SpeciesData (models/health.py): integer counts (pydantic does not
bound them below, so ℤ), optional diversity index. -/
structure SpeciesData (α : Type) where
  total_species : ℤ
  total_observations : ℤ
  endemic_species : ℤ
  threatened_species : ℤ
  recent_observations : ℤ
  biodiversity_index : Option α
deriving DecidableEq

/-! Health score calculator (app/services/health.py, class HealthCalculator). -/

/-- OPTIMAL_RANGES of health.py (the sst and sst_anomaly entries are
never read by the calculator; the four used entries follow). -/
def OPTIMAL_RANGES_oxygen : ℚ × ℚ := (5.0, 8.0)

def OPTIMAL_RANGES_ph : ℚ × ℚ := (8.0, 8.3)

def OPTIMAL_RANGES_salinity : ℚ × ℚ := (33, 37)

def OPTIMAL_RANGES_chlorophyll : ℚ × ℚ := (0.1, 3.0)

/-- WEIGHTS of health.py lines 30-35. -/
def WEIGHTS_biodiversity : ℚ := 0.30

def WEIGHTS_water_quality : ℚ := 0.25

def WEIGHTS_thermal_stress : ℚ := 0.25

def WEIGHTS_productivity : ℚ := 0.20

/-- Encodes int(math.log10(m) * 15) from health.py line 120: for m ≥ 1 the
value 15·log₁₀ m is nonnegative, so Python int() is the floor, and
⌊15·log₁₀ m⌋ = ⌊log₁₀ (m^15)⌋ = Nat.log 10 (m^15); none models the
ValueError math.log10 raises on m ≤ 0. -/
def log10Mul15Floor (m : ℤ) : Option ℤ :=
  if m ≤ 0 then none else some (Nat.log 10 (m.toNat ^ 15))

/-- HealthCalculator._calculate_biodiversity_score (health.py 104-148). -/
def calculateBiodiversityScore {α : Type} [LinearOrderedField α] [FloorRing α]
    (species : SpeciesData α) : Option ℤ := do
  let score : ℤ := 50
  -- species richness contribution (line 116-121)
  let score ← if 0 < species.total_species then do
      let l : ℤ ← log10Mul15Floor (species.total_species + 1)
      pure (score + (min 30 l - 15))
    else pure score
  -- diversity index contribution (line 124-133)
  let score := score + (match species.biodiversity_index with
    | none => 0
    | some idx =>
      if (3.5 : α) ≤ idx then 20
      else if (2.5 : α) ≤ idx then 15
      else if (1.5 : α) ≤ idx then 10
      else 5)
  -- recent activity contribution (line 136-138)
  let score ← if 0 < species.total_observations then do
      let recentRatio : α ←
        fdiv (species.recent_observations : α) (species.total_observations : α)
      pure (score + pyInt (recentRatio * 15))
    else pure score
  -- threatened species penalty (line 141-146)
  let score ← if 0 < species.total_species then do
      let threatenedRatio : α ←
        fdiv (species.threatened_species : α) (species.total_species : α)
      pure (if (0.15 : α) < threatenedRatio then score - 10
        else if (0.10 : α) < threatenedRatio then score - 5
        else score)
    else pure score
  pure (max 0 (min 100 score))

/-- The oxygen branch of _calculate_water_quality_score (health.py 162-169). -/
def oxygenSubScore {α : Type} [LinearOrderedField α] [FloorRing α]
    (oxygen : α) : Option ℤ :=
  if ((OPTIMAL_RANGES_oxygen.1 : α) ≤ oxygen ∧ oxygen ≤ (OPTIMAL_RANGES_oxygen.2 : α)) then
    some 100
  else if oxygen < (OPTIMAL_RANGES_oxygen.1 : α) then
    (fdiv oxygen (OPTIMAL_RANGES_oxygen.1 : α)).map (fun q => max 0 (pyInt (q * 100)))
  else
    some (max 0 (100 - pyInt ((oxygen - (OPTIMAL_RANGES_oxygen.2 : α)) * 20)))

/-- The pH branch of _calculate_water_quality_score (health.py 172-178). -/
def phSubScore {α : Type} [LinearOrderedField α] [FloorRing α] (ph : α) : ℤ :=
  if ((OPTIMAL_RANGES_ph.1 : α) ≤ ph ∧ ph ≤ (OPTIMAL_RANGES_ph.2 : α)) then 100
  else
    let deviation := min |ph - (OPTIMAL_RANGES_ph.1 : α)| |ph - (OPTIMAL_RANGES_ph.2 : α)|
    max 0 (100 - pyInt (deviation * 100))

/-- The salinity branch of _calculate_water_quality_score (health.py 181-187). -/
def salinitySubScore {α : Type} [LinearOrderedField α] [FloorRing α] (salinity : α) : ℤ :=
  if ((OPTIMAL_RANGES_salinity.1 : α) ≤ salinity ∧ salinity ≤ (OPTIMAL_RANGES_salinity.2 : α)) then
    100
  else
    let deviation :=
      min |salinity - (OPTIMAL_RANGES_salinity.1 : α)| |salinity - (OPTIMAL_RANGES_salinity.2 : α)|
    max 0 (100 - pyInt (deviation * 10))

/-- HealthCalculator._calculate_water_quality_score (health.py 150-191). -/
def calculateWaterQualityScore {α : Type} [LinearOrderedField α] [FloorRing α]
    (env : EnvironmentalData α) : Option ℤ := do
  let oxygenScores ← match env.oxygen with
    | none => pure []
    | some oxygen => do
        let s ← oxygenSubScore oxygen
        pure [s]
  let phScores := match env.ph with
    | none => []
    | some ph => [phSubScore ph]
  let salinityScores := match env.salinity with
    | none => []
    | some salinity => [salinitySubScore salinity]
  let scores := oxygenScores ++ phScores ++ salinityScores
  if scores = [] then pure 70
  else do
    let avg : α ← fdiv (((scores.sum : ℤ) : α)) ((scores.length : α))
    pure (pyInt avg)

/-- HealthCalculator._calculate_thermal_stress_score (health.py 193-215). -/
def calculateThermalStressScore {α : Type} [LinearOrderedField α] [FloorRing α]
    (env : EnvironmentalData α) : ℤ :=
  match env.sst_anomaly with
  | none => 70
  | some a =>
    let anomaly := |a|
    if anomaly ≤ (0.5 : α) then 100
    else if anomaly ≤ (1.0 : α) then 85
    else if anomaly ≤ (1.5 : α) then 65
    else if anomaly ≤ (2.0 : α) then 40
    else max 0 (pyInt (100 - anomaly * 40))

/-- The chlorophyll branch of _calculate_productivity_score (health.py 230-240). -/
def chlorophyllSubScore {α : Type} [LinearOrderedField α] [FloorRing α]
    (chlorophyll : α) : Option ℤ :=
  if ((OPTIMAL_RANGES_chlorophyll.1 : α) ≤ chlorophyll ∧
      chlorophyll ≤ (OPTIMAL_RANGES_chlorophyll.2 : α)) then
    some 100
  else if chlorophyll < (OPTIMAL_RANGES_chlorophyll.1 : α) then
    (fdiv chlorophyll (OPTIMAL_RANGES_chlorophyll.1 : α)).map
      (fun q => max 40 (pyInt (q * 100)))
  else
    some (max 30 (100 - pyInt ((chlorophyll - (OPTIMAL_RANGES_chlorophyll.2 : α)) * 10)))

/-- HealthCalculator._calculate_productivity_score (health.py 217-250). -/
def calculateProductivityScore {α : Type} [LinearOrderedField α] [FloorRing α]
    (env : EnvironmentalData α) (species : SpeciesData α) : Option ℤ := do
  let chlorophyllScores ← match env.chlorophyll with
    | none => pure []
    | some chlorophyll => do
        let s ← chlorophyllSubScore chlorophyll
        pure [s]
  let obsScores ← if 0 < species.total_observations then do
      let q : α ← fdiv ((species.total_observations : α)) 50
      pure [min 100 (pyInt q)]
    else pure []
  let scores := chlorophyllScores ++ obsScores
  if scores = [] then pure 70
  else do
    let avg : α ← fdiv (((scores.sum : ℤ) : α)) ((scores.length : α))
    pure (pyInt avg)

/-- The data-availability count of _calculate_confidence (health.py 260-274). -/
def dataPoints {α : Type} (env : EnvironmentalData α) (species : SpeciesData α) : ℤ :=
  (if env.sst.isSome then 1 else 0)
  + (if env.chlorophyll.isSome then 1 else 0)
  + (if env.oxygen.isSome then 1 else 0)
  + (if env.ph.isSome then 1 else 0)
  + (if 0 < species.total_species then 1 else 0)
  + (if 0 < species.total_observations then 1 else 0)

/-- HealthCalculator._calculate_confidence (health.py 252-283); the ratio
data_points / total_points is a Python float of two ints, exact in ℚ. -/
def calculateConfidence {α : Type} (env : EnvironmentalData α)
    (species : SpeciesData α) : Option String := do
  let ratio ← fdiv ((dataPoints env species : ℚ)) ((6 : ℚ))
  pure (if (0.8 : ℚ) ≤ ratio then ("high")
    else if (0.5 : ℚ) ≤ ratio then ("medium")
    else ("low"))

/-- The overall weighted score of calculate_health_score (health.py 77-82). -/
def overallScore {α : Type} [LinearOrderedField α] [FloorRing α]
    (biodiversity waterQuality thermalStress productivity : ℤ) : ℤ :=
  pyInt ((biodiversity : α) * (WEIGHTS_biodiversity : α)
    + (waterQuality : α) * (WEIGHTS_water_quality : α)
    + (thermalStress : α) * (WEIGHTS_thermal_stress : α)
    + (productivity : α) * (WEIGHTS_productivity : α))

/-- The computed part of a HealthScore (models/health.py HealthBreakdown
plus the overall score, confidence and data-source labels). -/
structure HealthCore where
  biodiversity : ℤ
  water_quality : ℤ
  thermal_stress : ℤ
  productivity : ℤ
  score : ℤ
  confidence : String
  data_sources : List String
deriving DecidableEq

/-- The pure computation of HealthCalculator.calculate_health_score
(health.py 37-102) on already-fetched inputs. -/
def calculateHealthScore {α : Type} [LinearOrderedField α] [FloorRing α]
    (env : EnvironmentalData α) (species : SpeciesData α) : Option HealthCore := do
  let biodiversity ← calculateBiodiversityScore species
  let waterQuality ← calculateWaterQualityScore env
  let thermalStress := calculateThermalStressScore env
  let productivity ← calculateProductivityScore env species
  let overall := overallScore (α := α) biodiversity waterQuality thermalStress productivity
  let confidence ← calculateConfidence env species
  pure { biodiversity := biodiversity
         water_quality := waterQuality
         thermal_stress := thermalStress
         productivity := productivity
         score := overall
         confidence := confidence
         data_sources := ("obis") :: (if env.sst.isSome then [("copernicus")] else []) }

/-! Copernicus service (app/services/copernicus.py, class CopernicusService).
The climatology estimators read datetime.utcnow only through the day of the
year, passed here as an explicit parameter. -/

/-- CopernicusService._estimate_sst (copernicus.py 305-330). -/
noncomputable def estimateSst (lat : ℝ) (dayOfYear : ℕ) : ℝ :=
  let absLat := |lat|
  let baseSst := 28 - absLat / 90 * 30
  let seasonalFactor := Real.sin (((dayOfYear : ℝ) - 80) * 2 * Real.pi / 365)
  let seasonalFactor := if lat < 0 then -seasonalFactor else seasonalFactor
  let seasonalAmplitude := min (absLat / 30) 1 * 4
  max (-2) (min 32 (baseSst + seasonalFactor * seasonalAmplitude))

/-- CopernicusService._estimate_chlorophyll (copernicus.py 332-360). -/
noncomputable def estimateChlorophyll (lat : ℝ) (dayOfYear : ℕ) : ℝ :=
  let absLat := |lat|
  let baseChl : ℝ := if absLat < 15 then 0.1 else if absLat < 40 then 0.3 else 1.0
  let seasonalFactor := max 0 (Real.sin (((dayOfYear : ℝ) - 60) * 2 * Real.pi / 365))
  let seasonalFactor :=
    if lat < 0 then max 0 (Real.sin (((dayOfYear : ℝ) - 240) * 2 * Real.pi / 365))
    else seasonalFactor
  let bloomEffect := seasonalFactor * baseChl * 2
  baseChl + bloomEffect

/-- CopernicusService._estimate_oxygen (copernicus.py 362-372). -/
noncomputable def estimateOxygen (sst : ℝ) : ℝ :=
  max 4 (min 9 (8 - sst / 30 * 3.5))

/-- CopernicusService._estimate_ph (copernicus.py 374-384). -/
noncomputable def estimatePh (lat : ℝ) : ℝ :=
  8.1 + (1 - |lat| / 90) * 0.1

/-- CopernicusService._estimate_salinity (copernicus.py 386-408). -/
noncomputable def estimateSalinity (lat : ℝ) : ℝ :=
  let absLat := |lat|
  if absLat < 10 then 34.5
  else if absLat < 35 then 36.5
  else if absLat < 60 then 35.0
  else 34.0

/-- The dict _fetch_sst_from_wms answers with on success
(copernicus.py 233): keys sst and anomaly, read back with dict.get. -/
structure SstFetchResult where
  sst : Option ℝ
  anomaly : Option ℝ

/-- The dict _fetch_bgc_data answers with on success (copernicus.py 290-298):
any of the keys chlorophyll, oxygen, ph may be present; a salinity key is
read by the caller but never written by the fetch. -/
structure BgcFetchResult where
  chlorophyll : Option ℝ
  oxygen : Option ℝ
  ph : Option ℝ
  salinity : Option ℝ

/-- Python (x or 0) on an optional float: None and 0.0 are falsy. -/
noncomputable def pyOrZero (x : Option ℝ) : ℝ :=
  match x with
  | none => 0
  | some v => if v = 0 then 0 else v

/-- CopernicusService._fetch_copernicus_data (copernicus.py 113-170).
The two network fetches are ambient inputs: sstResult is what
_fetch_sst_from_wms answered (none on any failure), bgcResult what
_fetch_bgc_data would answer; the latter is consulted only when
credentials are configured, as in the source. -/
noncomputable def fetchCopernicusData (hasCreds : Bool)
    (sstResult : Option SstFetchResult) (bgcResult : Option BgcFetchResult)
    (lat : ℝ) (dayOfYear : ℕ) : EnvironmentalData ℝ :=
  let sst0 : Option ℝ := match sstResult with | some r => r.sst | none => none
  let anomaly0 : Option ℝ := match sstResult with | some r => r.anomaly | none => none
  let bgc : Option ℝ × Option ℝ × Option ℝ × Option ℝ :=
    if hasCreds then
      match bgcResult with
      | some b => (b.chlorophyll, b.oxygen, b.ph, b.salinity)
      | none => (none, none, none, none)
    else (none, none, none, none)
  let sst1 : ℝ := match sst0 with | some s => s | none => estimateSst lat dayOfYear
  let anomaly1 : Option ℝ := match sst0 with | some _ => anomaly0 | none => some 0
  let chl1 : ℝ := match bgc.1 with | some c => c | none => estimateChlorophyll lat dayOfYear
  let ox1 : ℝ := match bgc.2.1 with | some o => o | none => estimateOxygen sst1
  let ph1 : ℝ := match bgc.2.2.1 with | some p => p | none => estimatePh lat
  let sal1 : ℝ := match bgc.2.2.2 with | some s => s | none => estimateSalinity lat
  { sst := some (pyRound 1 sst1)
    sst_anomaly := some (pyRound 2 (pyOrZero anomaly1))
    chlorophyll := some (pyRound 2 chl1)
    oxygen := some (pyRound 1 ox1)
    ph := some (pyRound 2 ph1)
    salinity := some (pyRound 1 sal1) }

/-! Authentication token state machine (copernicus.py 42-88). Times are
epoch seconds; the network exchange is an ambient input: Except.error
models an exception raised inside the try block, Except.ok a response. -/

/-- The fields of the authentication response the code reads. -/
structure AuthResponse where
  statusCode : ℤ
  accessToken : Option String
  expiresIn : Option ℤ

/-- The instance attributes of CopernicusService the token logic uses. -/
structure CopernicusAuthState where
  username : String
  password : String
  accessToken : Option String
  tokenExpiry : Option ℤ

/-- CopernicusService.has_credentials (copernicus.py 49-52):
bool(self.username and self.password), empty strings are falsy. -/
def hasCredentials (st : CopernicusAuthState) : Bool :=
  (st.username != "") && (st.password != "")

/-- Truthiness of the cached token attribute (None and "" are falsy). -/
def tokenTruthy : Option String → Bool
  | none => false
  | some t => t != ""

/-- CopernicusService._get_access_token (copernicus.py 54-88), returning
(the result, the updated state, whether a network call was made). The
Python function returns in every path and propagates no exception: the
try block catches everything. -/
def getAccessToken (st : CopernicusAuthState) (now : ℤ)
    (exchange : Except Unit AuthResponse) :
    Option String × CopernicusAuthState × Bool :=
  if ¬ hasCredentials st then (none, st, false)
  else
    let cachedValid : Bool :=
      match st.accessToken, st.tokenExpiry with
      | some t, some e => (t != "") && decide (now < e - 300)
      | _, _ => false
    if cachedValid then (st.accessToken, st, false)
    else
      match exchange with
      | Except.error _ => (none, st, true)
      | Except.ok resp =>
        if resp.statusCode = 200 then
          let expiresIn := match resp.expiresIn with | some e => e | none => 3600
          (resp.accessToken,
            { st with accessToken := resp.accessToken, tokenExpiry := some (now + expiresIn) },
            true)
        else (none, st, true)

/-! Marine heatwave classifier (copernicus.py 446-616). -/

/-- HeatwaveCategory (models/health.py 67-78). -/
inductive HeatwaveCategory where
  | none
  | moderate
  | strong
  | severe
  | extreme
deriving DecidableEq

/-- The numeric and categorical fields of MarineHeatwaveAlert
(models/health.py 81-96); the static narrative strings
(ecological_impact, recommendations) are constant lookup text and are
not modelled. -/
structure MarineHeatwaveAlert (α : Type) where
  active : Bool
  category : HeatwaveCategory
  current_sst : α
  climatological_mean : α
  threshold90 : α
  anomaly : α
  intensity : α
  duration_days : Option ℤ
deriving DecidableEq

/-- The intensity ratio of detect_marine_heatwave (copernicus.py 483-492):
named intensity_ratio in the source. -/
def intensityRatioOf {α : Type} [LinearOrderedField α]
    (currentSst climatologicalMean threshold90 : α) : α :=
  let anomaly := currentSst - climatologicalMean
  let thresholdDiff := threshold90 - climatologicalMean
  if 0 < thresholdDiff then anomaly / thresholdDiff else 0

/-- The classification part of CopernicusService.detect_marine_heatwave
(copernicus.py 483-585) on the already-obtained current SST and the
climatological values. -/
def classifyHeatwave {α : Type} [LinearOrderedField α] [FloorRing α]
    (currentSst climatologicalMean threshold90 : α) : MarineHeatwaveAlert α :=
  let anomaly := currentSst - climatologicalMean
  let r := intensityRatioOf currentSst climatologicalMean threshold90
  let ca : HeatwaveCategory × Bool :=
    if r < 1 then (HeatwaveCategory.none, false)
    else if r < 2 then (HeatwaveCategory.moderate, true)
    else if r < 3 then (HeatwaveCategory.strong, true)
    else if r < 4 then (HeatwaveCategory.severe, true)
    else (HeatwaveCategory.extreme, true)
  let durationDays : Option ℤ :=
    if ca.2 then some (pyInt (min (5 + r * 5) 30)) else none
  { active := ca.2
    category := ca.1
    current_sst := pyRound 1 currentSst
    climatological_mean := pyRound 1 climatologicalMean
    threshold90 := pyRound 1 threshold90
    anomaly := pyRound 2 anomaly
    intensity := pyRound 2 r
    duration_days := durationDays }

/-- CopernicusService._get_climatological_mean (copernicus.py 587-593). -/
noncomputable def getClimatologicalMean (lat : ℝ) (dayOfYear : ℕ) : ℝ :=
  estimateSst lat dayOfYear

/-- CopernicusService._get_90th_percentile_threshold (copernicus.py 595-616). -/
noncomputable def get90thPercentileThreshold (lat : ℝ) (dayOfYear : ℕ) : ℝ :=
  let meanSst := getClimatologicalMean lat dayOfYear
  let absLat := |lat|
  let thresholdDiff : ℝ := if absLat < 25 then 1.0 else if absLat < 50 then 2.0 else 1.5
  meanSst + thresholdDiff

/-- CopernicusService.detect_marine_heatwave (copernicus.py 446-585) below
its cache lookup: the WMS fetch outcome is an ambient input. -/
noncomputable def detectMarineHeatwave (sstResult : Option SstFetchResult)
    (lat : ℝ) (dayOfYear : ℕ) : MarineHeatwaveAlert ℝ :=
  let currentSst : ℝ :=
    match sstResult with
    | some r => match r.sst with | some s => s | none => estimateSst lat dayOfYear
    | none => estimateSst lat dayOfYear
  classifyHeatwave currentSst (getClimatologicalMean lat dayOfYear)
    (get90thPercentileThreshold lat dayOfYear)

/-! OBIS service (app/services/obis.py, class OBISService). -/

/-- OBISService._calculate_shannon_index (obis.py 198-219). A checklist
entry is its optional records count: s.get with default 1. -/
noncomputable def calculateShannonIndex (species : List (Option ℤ)) : Option ℝ :=
  if species = [] then none
  else
    let counts : List ℤ := species.map (fun s => match s with | some r => r | none => 1)
    let total : ℤ := counts.sum
    if total = 0 then none
    else
      let h := -((counts.filter (fun c => decide (0 < c))).map
        (fun c : ℤ => (c : ℝ) / (total : ℝ) * Real.log ((c : ℝ) / (total : ℝ)))).sum
      some (pyRound 2 h)

/-- OBISService._estimate_species_data (obis.py 221-251). hashValue is the
ambient value of Python hash(f"{lat}{lon}"), which depends on the
process-wide randomized string hash seed; the lon argument enters the
computation only through that hash. -/
def estimateSpeciesData (hashValue : ℤ) (lat : ℚ) (_lon : ℚ) : SpeciesData ℚ :=
  let absLat := |lat|
  let bases : ℤ × ℤ :=
    if absLat < 23.5 then (800, 5000)
    else if absLat < 35 then (500, 3000)
    else if absLat < 60 then (300, 2000)
    else (150, 1000)
  let variation : ℚ := ((hashValue % 40 - 20 : ℤ) : ℚ) / 100
  let totalSpecies := pyInt ((bases.1 : ℚ) * (1 + variation))
  let totalObs := pyInt ((bases.2 : ℚ) * (1 + variation))
  { total_species := totalSpecies
    total_observations := totalObs
    endemic_species := pyInt ((totalSpecies : ℚ) * 0.05)
    threatened_species := pyInt ((totalSpecies : ℚ) * 0.08)
    recent_observations := pyInt ((totalObs : ℚ) * 0.15)
    biodiversity_index := some (pyRound 2 (3.5 + variation)) }

/-! Claim theorems, batch 1. -/

/-- C5: the latitude-banded species-data fallback is not deterministic
across runs: its output depends on the ambient value of the randomized
Python string hash, so two processes with different hash seeds diverge
at the same coordinates (here lat=0, lon=0 with hash values 0 and 1). -/
theorem estimateSpeciesData_hash_divergence :
    (estimateSpeciesData 0 0 0).total_species = 640 ∧
    (estimateSpeciesData 1 0 0).total_species = 648 ∧
    estimateSpeciesData 0 0 0 ≠ estimateSpeciesData 1 0 0 := by
  have h0 : (estimateSpeciesData 0 0 0).total_species = 640 := by
    norm_num [estimateSpeciesData, pyInt]
  have h1 : (estimateSpeciesData 1 0 0).total_species = 648 := by
    norm_num [estimateSpeciesData, pyInt]
  refine ⟨h0, h1, fun h => ?_⟩
  rw [h, h1] at h0
  exact absurd h0 (by norm_num)

/-- C2: heatwave classifier boundaries: intensity ratio exactly 1 gives
category moderate and active; exactly 2 gives strong; exactly 4 gives
extreme; a threshold equal to the climatological mean gives ratio 0,
category none, inactive, and no duration; when active, the estimated
duration is the floor of min(5 + ratio*5, 30). -/
theorem classifyHeatwave_boundaries (currentSst climatologicalMean threshold90 : ℚ) :
    (intensityRatioOf currentSst climatologicalMean threshold90 = 1 →
      (classifyHeatwave currentSst climatologicalMean threshold90).category =
          HeatwaveCategory.moderate ∧
      (classifyHeatwave currentSst climatologicalMean threshold90).active = true) ∧
    (intensityRatioOf currentSst climatologicalMean threshold90 = 2 →
      (classifyHeatwave currentSst climatologicalMean threshold90).category =
          HeatwaveCategory.strong ∧
      (classifyHeatwave currentSst climatologicalMean threshold90).active = true) ∧
    (intensityRatioOf currentSst climatologicalMean threshold90 = 4 →
      (classifyHeatwave currentSst climatologicalMean threshold90).category =
          HeatwaveCategory.extreme ∧
      (classifyHeatwave currentSst climatologicalMean threshold90).active = true) ∧
    (threshold90 = climatologicalMean →
      intensityRatioOf currentSst climatologicalMean threshold90 = 0 ∧
      (classifyHeatwave currentSst climatologicalMean threshold90).category =
          HeatwaveCategory.none ∧
      (classifyHeatwave currentSst climatologicalMean threshold90).active = false ∧
      (classifyHeatwave currentSst climatologicalMean threshold90).duration_days = none) ∧
    ((classifyHeatwave currentSst climatologicalMean threshold90).active = true →
      (classifyHeatwave currentSst climatologicalMean threshold90).duration_days =
        some ⌊min (5 + intensityRatioOf currentSst climatologicalMean threshold90 * 5) 30⌋) := by
  refine ⟨fun hr => ?_, fun hr => ?_, fun hr => ?_, fun ht => ?_, fun ha => ?_⟩
  · constructor <;> · simp only [classifyHeatwave, hr]; norm_num
  · constructor <;> · simp only [classifyHeatwave, hr]; norm_num
  · constructor <;> · simp only [classifyHeatwave, hr]; norm_num
  · have hr : intensityRatioOf currentSst climatologicalMean threshold90 = 0 := by
      simp [intensityRatioOf, ht]
    refine ⟨hr, ?_, ?_, ?_⟩ <;> · simp only [classifyHeatwave, hr]; norm_num
  · by_cases h1 : intensityRatioOf currentSst climatologicalMean threshold90 < 1
    · exfalso
      simp only [classifyHeatwave, if_pos h1] at ha
      exact Bool.false_ne_true ha
    · have hge : (1 : ℚ) ≤ intensityRatioOf currentSst climatologicalMean threshold90 :=
        not_lt.mp h1
      have hmin : (0 : ℚ) ≤ min (5 + intensityRatioOf currentSst climatologicalMean threshold90 * 5) 30 :=
        le_min (by linarith) (by norm_num)
      simp only [classifyHeatwave, if_neg h1, pyInt_eq_floor_of_nonneg hmin]
      by_cases h2 : intensityRatioOf currentSst climatologicalMean threshold90 < 2 <;>
        by_cases h3 : intensityRatioOf currentSst climatologicalMean threshold90 < 3 <;>
        by_cases h4 : intensityRatioOf currentSst climatologicalMean threshold90 < 4 <;>
        simp [h2, h3, h4]

/-- C3: the overall health score is the floor (never rounded up) of the
weighted sum of the four sub-scores, the four weights sum to exactly 1,
and the overall score never exceeds the maximum sub-score. -/
theorem overallScore_floor_weighted (b w t p : ℤ)
    (hb0 : 0 ≤ b) (_hb1 : b ≤ 100) (hw0 : 0 ≤ w) (_hw1 : w ≤ 100)
    (ht0 : 0 ≤ t) (_ht1 : t ≤ 100) (hp0 : 0 ≤ p) (_hp1 : p ≤ 100) :
    overallScore (α := ℚ) b w t p =
      ⌊(b : ℚ) * WEIGHTS_biodiversity + (w : ℚ) * WEIGHTS_water_quality
        + (t : ℚ) * WEIGHTS_thermal_stress + (p : ℚ) * WEIGHTS_productivity⌋ ∧
    WEIGHTS_biodiversity + WEIGHTS_water_quality + WEIGHTS_thermal_stress
        + WEIGHTS_productivity = 1 ∧
    overallScore (α := ℚ) b w t p ≤ max (max (max b w) t) p := by
  have hb : (0 : ℚ) ≤ (b : ℚ) := by exact_mod_cast hb0
  have hw : (0 : ℚ) ≤ (w : ℚ) := by exact_mod_cast hw0
  have ht : (0 : ℚ) ≤ (t : ℚ) := by exact_mod_cast ht0
  have hp : (0 : ℚ) ≤ (p : ℚ) := by exact_mod_cast hp0
  have harg : (0 : ℚ) ≤ (b : ℚ) * WEIGHTS_biodiversity + (w : ℚ) * WEIGHTS_water_quality
      + (t : ℚ) * WEIGHTS_thermal_stress + (p : ℚ) * WEIGHTS_productivity := by
    simp only [WEIGHTS_biodiversity, WEIGHTS_water_quality, WEIGHTS_thermal_stress,
      WEIGHTS_productivity]
    norm_num
    nlinarith
  have heq : overallScore (α := ℚ) b w t p =
      ⌊(b : ℚ) * WEIGHTS_biodiversity + (w : ℚ) * WEIGHTS_water_quality
        + (t : ℚ) * WEIGHTS_thermal_stress + (p : ℚ) * WEIGHTS_productivity⌋ := by
    rw [overallScore, pyInt_eq_floor_of_nonneg (by simpa using harg)]
    norm_num
  refine ⟨heq, by norm_num [WEIGHTS_biodiversity, WEIGHTS_water_quality,
    WEIGHTS_thermal_stress, WEIGHTS_productivity], ?_⟩
  set M := max (max (max b w) t) p with hM
  have hbM : b ≤ M := le_max_of_le_left (le_max_of_le_left (le_max_left _ _))
  have hwM : w ≤ M := le_max_of_le_left (le_max_of_le_left (le_max_right _ _))
  have htM : t ≤ M := le_max_of_le_left (le_max_right _ _)
  have hpM : p ≤ M := le_max_right _ _
  have hbMq : (b : ℚ) ≤ (M : ℚ) := by exact_mod_cast hbM
  have hwMq : (w : ℚ) ≤ (M : ℚ) := by exact_mod_cast hwM
  have htMq : (t : ℚ) ≤ (M : ℚ) := by exact_mod_cast htM
  have hpMq : (p : ℚ) ≤ (M : ℚ) := by exact_mod_cast hpM
  rw [heq]
  have : (b : ℚ) * WEIGHTS_biodiversity + (w : ℚ) * WEIGHTS_water_quality
      + (t : ℚ) * WEIGHTS_thermal_stress + (p : ℚ) * WEIGHTS_productivity ≤ (M : ℚ) := by
    simp only [WEIGHTS_biodiversity, WEIGHTS_water_quality, WEIGHTS_thermal_stress,
      WEIGHTS_productivity]
    norm_num
    linarith
  calc ⌊(b : ℚ) * WEIGHTS_biodiversity + (w : ℚ) * WEIGHTS_water_quality
        + (t : ℚ) * WEIGHTS_thermal_stress + (p : ℚ) * WEIGHTS_productivity⌋
      ≤ ⌊(M : ℚ)⌋ := Int.floor_le_floor this
    _ = M := Int.floor_intCast M

/-- Witness for C3 at the concrete sub-scores (80, 70, 65, 90). -/
theorem overallScore_floor_weighted_witness :
    overallScore (α := ℚ) 80 70 65 90 =
      ⌊(80 : ℚ) * WEIGHTS_biodiversity + (70 : ℚ) * WEIGHTS_water_quality
        + (65 : ℚ) * WEIGHTS_thermal_stress + (90 : ℚ) * WEIGHTS_productivity⌋ ∧
    WEIGHTS_biodiversity + WEIGHTS_water_quality + WEIGHTS_thermal_stress
        + WEIGHTS_productivity = 1 ∧
    overallScore (α := ℚ) 80 70 65 90 ≤ max (max (max 80 70) 65) 90 :=
  overallScore_floor_weighted 80 70 65 90 (by norm_num) (by norm_num) (by norm_num)
    (by norm_num) (by norm_num) (by norm_num) (by norm_num) (by norm_num)

/-- C9: the confidence label comes from the fraction of the 6 tracked
fields present (sst, chlorophyll, oxygen, pH, species count > 0,
observations > 0): fraction ≥ 0.8 gives high, ≥ 0.5 gives medium, else
low; in particular 5 of 6 gives high, 3 of 6 gives medium, 2 of 6 low. -/
theorem calculateConfidence_thresholds (env : EnvironmentalData ℚ) (species : SpeciesData ℚ) :
    (calculateConfidence env species = some ("high") ↔
      (0.8 : ℚ) ≤ (dataPoints env species : ℚ) / 6) ∧
    (calculateConfidence env species = some ("medium") ↔
      ((0.5 : ℚ) ≤ (dataPoints env species : ℚ) / 6 ∧ (dataPoints env species : ℚ) / 6 < 0.8)) ∧
    (calculateConfidence env species = some ("low") ↔
      (dataPoints env species : ℚ) / 6 < 0.5) ∧
    dataPoints (⟨some 20, none, some 1, some 6, none, none⟩ : EnvironmentalData ℚ)
      (⟨100, 500, 0, 0, 0, none⟩ : SpeciesData ℚ) = 5 ∧
    calculateConfidence (⟨some 20, none, some 1, some 6, none, none⟩ : EnvironmentalData ℚ)
      (⟨100, 500, 0, 0, 0, none⟩ : SpeciesData ℚ) = some ("high") ∧
    dataPoints (⟨some 20, none, some 1, none, none, none⟩ : EnvironmentalData ℚ)
      (⟨100, 0, 0, 0, 0, none⟩ : SpeciesData ℚ) = 3 ∧
    calculateConfidence (⟨some 20, none, some 1, none, none, none⟩ : EnvironmentalData ℚ)
      (⟨100, 0, 0, 0, 0, none⟩ : SpeciesData ℚ) = some ("medium") ∧
    dataPoints (⟨some 20, none, some 1, none, none, none⟩ : EnvironmentalData ℚ)
      (⟨0, 0, 0, 0, 0, none⟩ : SpeciesData ℚ) = 2 ∧
    calculateConfidence (⟨some 20, none, some 1, none, none, none⟩ : EnvironmentalData ℚ)
      (⟨0, 0, 0, 0, 0, none⟩ : SpeciesData ℚ) = some ("low") := by
  have hkey : calculateConfidence env species =
      some (if (0.8 : ℚ) ≤ (dataPoints env species : ℚ) / 6 then ("high")
        else if (0.5 : ℚ) ≤ (dataPoints env species : ℚ) / 6 then ("medium")
        else ("low")) := by
    simp [calculateConfidence, fdiv]
  refine ⟨?_, ?_, ?_, ?_, ?_, ?_, ?_, ?_, ?_⟩
  · rw [hkey]
    by_cases h1 : (0.8 : ℚ) ≤ (dataPoints env species : ℚ) / 6 <;>
      by_cases h2 : (0.5 : ℚ) ≤ (dataPoints env species : ℚ) / 6 <;>
      simp [h1, h2]
  · rw [hkey]
    by_cases h1 : (0.8 : ℚ) ≤ (dataPoints env species : ℚ) / 6
    · have h3 : ¬ (dataPoints env species : ℚ) / 6 < 0.8 := not_lt.mpr h1
      simp [h1, h3]
    · by_cases h2 : (0.5 : ℚ) ≤ (dataPoints env species : ℚ) / 6
      · have h3 : (dataPoints env species : ℚ) / 6 < 0.8 := not_le.mp h1
        simp [h1, h2, h3]
      · simp [h1, h2]
  · rw [hkey]
    by_cases h1 : (0.8 : ℚ) ≤ (dataPoints env species : ℚ) / 6
    · have h3 : ¬ (dataPoints env species : ℚ) / 6 < 0.5 :=
        not_lt.mpr (le_trans (by norm_num) h1)
      simp [h1, h3]
    · by_cases h2 : (0.5 : ℚ) ≤ (dataPoints env species : ℚ) / 6
      · have h3 : ¬ (dataPoints env species : ℚ) / 6 < 0.5 := not_lt.mpr h2
        simp [h1, h2, h3]
      · simp [h1, h2, not_le.mp h2]
  · norm_num [dataPoints]
  · norm_num [calculateConfidence, dataPoints, fdiv]
  · norm_num [dataPoints]
  · norm_num [calculateConfidence, dataPoints, fdiv]
  · norm_num [dataPoints]
  · norm_num [calculateConfidence, dataPoints, fdiv]

/-- C8: the token getter returns none with no network call when no
credentials are configured; returns the cached token with no network
call when a nonempty token is cached and now < expiry − 5 minutes; and
whenever it does perform the exchange and that exchange fails (an
exception, modelled Except.error, or a non-200 status), it returns
none. It is a total function: no exception reaches the caller. -/
theorem getAccessToken_contract (st : CopernicusAuthState) (now : ℤ)
    (exchange : Except Unit AuthResponse) :
    (hasCredentials st = false → getAccessToken st now exchange = (none, st, false)) ∧
    (∀ t e, hasCredentials st = true → st.accessToken = some t → t ≠ "" →
      st.tokenExpiry = some e → now < e - 300 →
      getAccessToken st now exchange = (some t, st, false)) ∧
    (∀ err, exchange = Except.error err →
      (getAccessToken st now exchange).2.2 = true →
      (getAccessToken st now exchange).1 = none) ∧
    (∀ resp, exchange = Except.ok resp → resp.statusCode ≠ 200 →
      (getAccessToken st now exchange).2.2 = true →
      (getAccessToken st now exchange).1 = none) := by
  refine ⟨fun hc => ?_, fun t e hc htok hne hexp hnow => ?_, fun err he hcall => ?_,
    fun resp he h200 hcall => ?_⟩
  · simp [getAccessToken, hc]
  · have hvalid : (match st.accessToken, st.tokenExpiry with
        | some t, some e => (t != "") && decide (now < e - 300)
        | _, _ => false) = true := by
      rw [htok, hexp]
      simp [hne, hnow]
    simp only [getAccessToken, hc, Bool.true_eq_false, not_false_eq_true,
      reduceIte, hvalid]
    rw [htok]
    simp
  · rcases hcred : hasCredentials st with _ | _
    · simp [getAccessToken, hcred] at hcall
    · by_cases hvalid : (match st.accessToken, st.tokenExpiry with
        | some t, some e => (t != "") && decide (now < e - 300)
        | _, _ => false) = true
      · simp [getAccessToken, hcred, hvalid] at hcall
      · simp only [Bool.not_eq_true] at hvalid
        simp [getAccessToken, hcred, hvalid, he]
  · rcases hcred : hasCredentials st with _ | _
    · simp [getAccessToken, hcred] at hcall
    · by_cases hvalid : (match st.accessToken, st.tokenExpiry with
        | some t, some e => (t != "") && decide (now < e - 300)
        | _, _ => false) = true
      · simp [getAccessToken, hcred, hvalid] at hcall
      · simp only [Bool.not_eq_true] at hvalid
        simp [getAccessToken, hcred, hvalid, he, h200]

/-- C10: every EnvironmentalData the aggregator builds has all six
fields present, each already a fixed point of its documented rounding
precision (sst 1 decimal, anomaly 2, chlorophyll 2, oxygen 1, ph 2,
salinity 1), and when no live SST was obtained the anomaly is set to
0.0 rather than left absent. -/
theorem fetchCopernicusData_fields_present (hasCreds : Bool)
    (sstResult : Option SstFetchResult) (bgcResult : Option BgcFetchResult)
    (lat : ℝ) (dayOfYear : ℕ) :
    (∃ v, (fetchCopernicusData hasCreds sstResult bgcResult lat dayOfYear).sst = some v ∧
      pyRound 1 v = v) ∧
    (∃ v, (fetchCopernicusData hasCreds sstResult bgcResult lat dayOfYear).sst_anomaly = some v ∧
      pyRound 2 v = v) ∧
    (∃ v, (fetchCopernicusData hasCreds sstResult bgcResult lat dayOfYear).chlorophyll = some v ∧
      pyRound 2 v = v) ∧
    (∃ v, (fetchCopernicusData hasCreds sstResult bgcResult lat dayOfYear).oxygen = some v ∧
      pyRound 1 v = v) ∧
    (∃ v, (fetchCopernicusData hasCreds sstResult bgcResult lat dayOfYear).ph = some v ∧
      pyRound 2 v = v) ∧
    (∃ v, (fetchCopernicusData hasCreds sstResult bgcResult lat dayOfYear).salinity = some v ∧
      pyRound 1 v = v) ∧
    ((match sstResult with | some r => r.sst | none => none) = none →
      (fetchCopernicusData hasCreds sstResult bgcResult lat dayOfYear).sst_anomaly = some 0) := by
  refine ⟨⟨_, rfl, pyRound_idem 1 _⟩, ⟨_, rfl, pyRound_idem 2 _⟩, ⟨_, rfl, pyRound_idem 2 _⟩,
    ⟨_, rfl, pyRound_idem 1 _⟩, ⟨_, rfl, pyRound_idem 2 _⟩, ⟨_, rfl, pyRound_idem 1 _⟩,
    fun hnone => ?_⟩
  rcases sstResult with _ | r
  · simp [fetchCopernicusData, pyOrZero, pyRound_zero]
  · simp only [] at hnone
    simp [fetchCopernicusData, hnone, pyOrZero, pyRound_zero]

/-- C4 (amended): with no credentials configured the biogeochemistry
fields of the returned reading are estimator-derived only (oxygen from
the estimator applied to the live SST when one was obtained); when the
live SST fetch fails, the SST itself is the climatology estimate,
sst_anomaly is set to 0.0 (zero, not absent), and the thermal-stress
sub-score on that reading is therefore 100, not the 70 default (which
the source only produces when the anomaly is absent). -/
theorem fetchCopernicusData_no_credentials (sstResult : Option SstFetchResult)
    (bgcResult : Option BgcFetchResult) (lat : ℝ) (dayOfYear : ℕ) :
    (fetchCopernicusData false sstResult bgcResult lat dayOfYear).chlorophyll
      = some (pyRound 2 (estimateChlorophyll lat dayOfYear)) ∧
    (fetchCopernicusData false sstResult bgcResult lat dayOfYear).ph
      = some (pyRound 2 (estimatePh lat)) ∧
    (fetchCopernicusData false sstResult bgcResult lat dayOfYear).salinity
      = some (pyRound 1 (estimateSalinity lat)) ∧
    (∀ r v, sstResult = some r → r.sst = some v →
      (fetchCopernicusData false sstResult bgcResult lat dayOfYear).oxygen
        = some (pyRound 1 (estimateOxygen v))) ∧
    ((match sstResult with | some r => r.sst | none => none) = none →
      (fetchCopernicusData false sstResult bgcResult lat dayOfYear).sst
          = some (pyRound 1 (estimateSst lat dayOfYear)) ∧
      (fetchCopernicusData false sstResult bgcResult lat dayOfYear).oxygen
          = some (pyRound 1 (estimateOxygen (estimateSst lat dayOfYear))) ∧
      (fetchCopernicusData false sstResult bgcResult lat dayOfYear).sst_anomaly = some 0 ∧
      calculateThermalStressScore (fetchCopernicusData false sstResult bgcResult lat dayOfYear)
          = 100) := by
  refine ⟨by simp [fetchCopernicusData], by simp [fetchCopernicusData],
    by simp [fetchCopernicusData], fun r v hr hv => ?_, fun hnone => ?_⟩
  · subst hr
    simp [fetchCopernicusData, hv]
  · have hanom : (fetchCopernicusData false sstResult bgcResult lat dayOfYear).sst_anomaly
        = some 0 := by
      rcases sstResult with _ | r
      · simp [fetchCopernicusData, pyOrZero, pyRound_zero]
      · simp only [] at hnone
        simp [fetchCopernicusData, hnone, pyOrZero, pyRound_zero]
    refine ⟨?_, ?_, hanom, ?_⟩
    · rcases sstResult with _ | r
      · simp [fetchCopernicusData]
      · simp only [] at hnone
        simp [fetchCopernicusData, hnone]
    · rcases sstResult with _ | r
      · simp [fetchCopernicusData]
      · simp only [] at hnone
        simp [fetchCopernicusData, hnone]
    · rw [calculateThermalStressScore, hanom]
      norm_num

/-- C4, counterexample to the claim as stated: at the point (0, 0) with
no credentials and a failed live SST fetch, the thermal-stress
sub-score of the returned reading is 100, not the claimed default 70,
because the aggregator stores sst_anomaly = 0.0 instead of leaving it
absent. -/
theorem fetchCopernicusData_sst_failure_thermal_not_70 :
    calculateThermalStressScore (fetchCopernicusData false none none 0 1) = 100 ∧
    calculateThermalStressScore (fetchCopernicusData false none none 0 1) ≠ 70 := by
  have hanom : (fetchCopernicusData false none none 0 1).sst_anomaly = some 0 := by
    simp [fetchCopernicusData, pyOrZero, pyRound_zero]
  have h100 : calculateThermalStressScore (fetchCopernicusData false none none 0 1) = 100 := by
    rw [calculateThermalStressScore, hanom]
    norm_num
  exact ⟨h100, by rw [h100]; norm_num⟩

/-- The rounded value the Shannon computation returns on the two-species
checklist [1, 1]: Python round(ln 2, 2) = 0.69. -/
theorem pyRound_two_log_two : pyRound 2 (Real.log 2) = 69 / 100 := by
  have hgt := Real.log_two_gt_d9
  have hlt := Real.log_two_lt_d9
  have hfloor : ⌊Real.log 2 * 10 ^ 2⌋ = 69 := by
    rw [Int.floor_eq_iff]
    constructor
    · push_cast
      nlinarith
    · push_cast
      nlinarith
  rw [pyRound, roundHalfEven, hfloor]
  have hfrac : Real.log 2 * 10 ^ 2 - ((69 : ℤ) : ℝ) < 1 / 2 := by
    push_cast
    nlinarith
  rw [if_pos hfrac]
  norm_num

/-- C6, counterexample to the claim as stated: on a checklist of two
species with one record each, the stored index is round(ln 2, 2) = 0.69,
which is not the exact Shannon entropy −Σ pᵢ·ln pᵢ = ln 2. -/
theorem calculateShannonIndex_not_exact :
    calculateShannonIndex [some 1, some 1] ≠
      some (-((1 / 2 : ℝ) * Real.log (1 / 2) + (1 / 2 : ℝ) * Real.log (1 / 2))) := by
  have hlog : -((1 / 2 : ℝ) * Real.log (1 / 2) + (1 / 2 : ℝ) * Real.log (1 / 2))
      = Real.log 2 := by
    rw [one_div, Real.log_inv]
    ring
  have hL : calculateShannonIndex [some 1, some 1] = some (pyRound 2 (Real.log 2)) := by
    rw [calculateShannonIndex, if_neg (by simp : ¬([some 1, some 1] : List (Option ℤ)) = [])]
    simp only [List.map_cons, List.map_nil, List.sum_cons, List.sum_nil, add_zero,
      List.filter_cons, List.filter_nil]
    rw [if_neg (by norm_num : ¬(1 + 1 : ℤ) = 0)]
    norm_num
    rw [show -(1 / 2 * Real.log (1 / 2)) + -(1 / 2 * Real.log (1 / 2)) = Real.log 2 by
      rw [one_div, Real.log_inv]; ring]
  rw [hL, hlog, pyRound_two_log_two]
  intro h
  have h2 : (69 / 100 : ℝ) = Real.log 2 := Option.some.injEq _ _ ▸ h
  have hgt := Real.log_two_gt_d9
  rw [← h2] at hgt
  norm_num at hgt

/-- C6 (amended): the stored biodiversity index is the Shannon entropy
−Σ pᵢ·ln pᵢ over the per-species record proportions, rounded to two
decimal places; a checklist of one species with a positive count gives
exactly 0; an empty checklist, or a checklist whose total record count
is zero, gives no index at all (absent, not zero). -/
theorem calculateShannonIndex_spec (species : List (Option ℤ)) :
    (species = [] → calculateShannonIndex species = none) ∧
    (species ≠ [] →
      (species.map (fun s => match s with | some r => r | none => 1)).sum = 0 →
      calculateShannonIndex species = none) ∧
    (species ≠ [] →
      (species.map (fun s => match s with | some r => r | none => 1)).sum ≠ 0 →
      calculateShannonIndex species =
        some (pyRound 2 (-List.sum (List.map
          (fun c : ℤ => (c : ℝ) /
              (((species.map (fun s => match s with | some r => r | none => 1)).sum : ℤ) : ℝ)
            * Real.log ((c : ℝ) /
              (((species.map (fun s => match s with | some r => r | none => 1)).sum : ℤ) : ℝ)))
          (List.filter (fun c => decide (0 < c))
            (species.map (fun s => match s with | some r => r | none => 1))))))) ∧
    (∀ c : ℤ, 0 < c → calculateShannonIndex [some c] = some 0) := by
  refine ⟨fun h => by rw [calculateShannonIndex, if_pos h], fun hne h0 => ?_, fun hne h0 => ?_,
    fun c hc => ?_⟩
  · simp only [calculateShannonIndex, if_neg hne, h0, if_pos]
  · simp only [calculateShannonIndex, if_neg hne, if_neg h0]
  · have hc0 : (c : ℝ) ≠ 0 := Int.cast_ne_zero.mpr (ne_of_gt hc)
    have hdec : decide (0 < c) = true := decide_eq_true hc
    simp only [calculateShannonIndex, List.map_cons, List.map_nil, List.sum_cons,
      List.sum_nil, add_zero]
    rw [if_neg (by simp), if_neg (ne_of_gt hc)]
    simp only [List.filter_cons, List.filter_nil, hdec, if_pos, List.map_cons, List.map_nil,
      List.sum_cons, List.sum_nil, add_zero, div_self hc0, Real.log_one, mul_zero, neg_zero]
    rw [pyRound_zero]


/-- C7: for every latitude in [−90, 90] and every day of the year the
SST estimate lies in [−2, 32] °C, and for a fixed day the estimate is
continuous at latitude 0: the hemisphere sign flip of the seasonal term
is damped by the amplitude factor, which vanishes at the equator. -/
theorem estimateSst_bounded_and_continuous (lat : ℝ) (dayOfYear : ℕ) :
    (-90 ≤ lat → lat ≤ 90 →
      -2 ≤ estimateSst lat dayOfYear ∧ estimateSst lat dayOfYear ≤ 32) ∧
    ContinuousAt (fun l => estimateSst l dayOfYear) 0 := by
  constructor
  · intro _ _
    constructor
    · exact le_max_left _ _
    · exact max_le (by norm_num) (min_le_left _ _)
  · have hseason : Filter.Tendsto
        (fun l : ℝ => (if l < 0 then -Real.sin (((dayOfYear : ℝ) - 80) * 2 * Real.pi / 365)
            else Real.sin (((dayOfYear : ℝ) - 80) * 2 * Real.pi / 365))
          * (min (|l| / 30) 1 * 4)) (nhds 0) (nhds 0) := by
      apply squeeze_zero_norm (a := fun l : ℝ => |l| * (2 / 15))
      · intro l
        have hsin : |if l < 0 then -Real.sin (((dayOfYear : ℝ) - 80) * 2 * Real.pi / 365)
            else Real.sin (((dayOfYear : ℝ) - 80) * 2 * Real.pi / 365)| ≤ 1 := by
          split
          · rw [abs_neg]
            exact Real.abs_sin_le_one _
          · exact Real.abs_sin_le_one _
        have hm0 : (0 : ℝ) ≤ min (|l| / 30) 1 * 4 :=
          mul_nonneg (le_min (by positivity) (by norm_num)) (by norm_num)
        have hm : min (|l| / 30) 1 * 4 ≤ |l| * (2 / 15) := by
          have : min (|l| / 30) 1 ≤ |l| / 30 := min_le_left _ _
          nlinarith
        calc ‖(if l < 0 then -Real.sin (((dayOfYear : ℝ) - 80) * 2 * Real.pi / 365)
              else Real.sin (((dayOfYear : ℝ) - 80) * 2 * Real.pi / 365))
            * (min (|l| / 30) 1 * 4)‖
            = |if l < 0 then -Real.sin (((dayOfYear : ℝ) - 80) * 2 * Real.pi / 365)
              else Real.sin (((dayOfYear : ℝ) - 80) * 2 * Real.pi / 365)|
              * |min (|l| / 30) 1 * 4| := abs_mul _ _
          _ ≤ 1 * (min (|l| / 30) 1 * 4) := by
              rw [abs_of_nonneg hm0]
              exact mul_le_mul_of_nonneg_right hsin hm0
          _ = min (|l| / 30) 1 * 4 := one_mul _
          _ ≤ |l| * (2 / 15) := hm
      · have hcont : Continuous fun l : ℝ => |l| * (2 / 15) :=
          continuous_abs.mul continuous_const
        have := hcont.tendsto 0
        simpa using this
    have hbase : ContinuousAt (fun l : ℝ => 28 - |l| / 90 * 30) 0 := by
      apply ContinuousAt.sub continuousAt_const
      exact ((continuous_abs.continuousAt).div_const 90).mul continuousAt_const
    have hg : ContinuousAt (fun l : ℝ => 28 - |l| / 90 * 30
        + (if l < 0 then -Real.sin (((dayOfYear : ℝ) - 80) * 2 * Real.pi / 365)
            else Real.sin (((dayOfYear : ℝ) - 80) * 2 * Real.pi / 365))
          * (min (|l| / 30) 1 * 4)) 0 := by
      have hs : ContinuousAt
          (fun l : ℝ => (if l < 0 then -Real.sin (((dayOfYear : ℝ) - 80) * 2 * Real.pi / 365)
              else Real.sin (((dayOfYear : ℝ) - 80) * 2 * Real.pi / 365))
            * (min (|l| / 30) 1 * 4)) 0 := by
        rw [ContinuousAt]
        convert hseason using 2
        norm_num
      exact hbase.add hs
    have hmin := Filter.Tendsto.min (tendsto_const_nhds (x := (32 : ℝ))) hg
    have hmax := Filter.Tendsto.max (tendsto_const_nhds (x := (-2 : ℝ))) hmin
    exact hmax

/-! Bounds of the individual health sub-scores, toward C1. -/

theorem OPTIMAL_RANGES_oxygen_cast {α : Type} [LinearOrderedField α] :
    ((OPTIMAL_RANGES_oxygen.1 : ℚ) : α) = 5 ∧ ((OPTIMAL_RANGES_oxygen.2 : ℚ) : α) = 8 := by
  norm_num [OPTIMAL_RANGES_oxygen]

theorem OPTIMAL_RANGES_chlorophyll_cast {α : Type} [LinearOrderedField α] :
    ((OPTIMAL_RANGES_chlorophyll.1 : ℚ) : α) = 1 / 10 ∧
    ((OPTIMAL_RANGES_chlorophyll.2 : ℚ) : α) = 3 := by
  norm_num [OPTIMAL_RANGES_chlorophyll]

theorem oxygenSubScore_bounds {α : Type} [LinearOrderedField α] [FloorRing α] (x : α) :
    ∃ s, oxygenSubScore x = some s ∧ 0 ≤ s ∧ s ≤ 100 := by
  obtain ⟨h1, h2⟩ := OPTIMAL_RANGES_oxygen_cast (α := α)
  rw [oxygenSubScore, h1, h2]
  by_cases hin : (5 : α) ≤ x ∧ x ≤ 8
  · exact ⟨100, by rw [if_pos hin], by norm_num, by norm_num⟩
  · rw [if_neg hin]
    by_cases hlow : x < 5
    · rw [if_pos hlow]
      have h5 : (5 : α) ≠ 0 := by norm_num
      refine ⟨max 0 (pyInt (x / 5 * 100)), by simp [fdiv, h5], le_max_left _ _, ?_⟩
      have hq : x / 5 * 100 ≤ (100 : α) := by
        have : x / 5 < 1 := (div_lt_one (by norm_num)).mpr hlow
        nlinarith
      exact max_le (by norm_num) (pyInt_le_of_le (by exact_mod_cast hq))
    · rw [if_neg hlow]
      have hx8 : (8 : α) < x := by
        rcases not_and_or.mp hin with h | h
        · exact absurd (not_le.mp h) hlow
        · exact not_le.mp h
      refine ⟨max 0 (100 - pyInt ((x - 8) * 20)), rfl, le_max_left _ _, ?_⟩
      have hp : (0 : ℤ) ≤ pyInt ((x - 8) * 20) :=
        pyInt_nonneg (by nlinarith)
      exact max_le (by norm_num) (by omega)

theorem phSubScore_bounds {α : Type} [LinearOrderedField α] [FloorRing α] (x : α) :
    0 ≤ phSubScore x ∧ phSubScore x ≤ 100 := by
  rw [phSubScore]
  split
  · norm_num
  · constructor
    · exact le_max_left _ _
    · have hdev : (0 : α) ≤ min |x - (OPTIMAL_RANGES_ph.1 : α)| |x - (OPTIMAL_RANGES_ph.2 : α)| :=
        le_min (abs_nonneg _) (abs_nonneg _)
      have hp : (0 : ℤ) ≤ pyInt (min |x - (OPTIMAL_RANGES_ph.1 : α)|
          |x - (OPTIMAL_RANGES_ph.2 : α)| * 100) :=
        pyInt_nonneg (by positivity)
      exact max_le (by norm_num) (by omega)

theorem salinitySubScore_bounds {α : Type} [LinearOrderedField α] [FloorRing α] (x : α) :
    0 ≤ salinitySubScore x ∧ salinitySubScore x ≤ 100 := by
  rw [salinitySubScore]
  split
  · norm_num
  · constructor
    · exact le_max_left _ _
    · have hp : (0 : ℤ) ≤ pyInt (min |x - (OPTIMAL_RANGES_salinity.1 : α)|
          |x - (OPTIMAL_RANGES_salinity.2 : α)| * 10) :=
        pyInt_nonneg (by positivity)
      exact max_le (by norm_num) (by omega)

theorem chlorophyllSubScore_bounds {α : Type} [LinearOrderedField α] [FloorRing α] (x : α) :
    ∃ s, chlorophyllSubScore x = some s ∧ 0 ≤ s ∧ s ≤ 100 := by
  obtain ⟨h1, h2⟩ := OPTIMAL_RANGES_chlorophyll_cast (α := α)
  rw [chlorophyllSubScore, h1, h2]
  by_cases hin : (1 / 10 : α) ≤ x ∧ x ≤ 3
  · exact ⟨100, by rw [if_pos hin], by norm_num, by norm_num⟩
  · rw [if_neg hin]
    by_cases hlow : x < 1 / 10
    · rw [if_pos hlow]
      have h01 : (1 / 10 : α) ≠ 0 := by norm_num
      refine ⟨max 40 (pyInt (x / (1 / 10) * 100)), by simp [fdiv, h01], by norm_num, ?_⟩
      have hq : x / (1 / 10) * 100 ≤ (100 : α) := by
        have : x / (1 / 10) < 1 := (div_lt_one (by norm_num)).mpr hlow
        nlinarith
      exact max_le (by norm_num) (pyInt_le_of_le (by exact_mod_cast hq))
    · rw [if_neg hlow]
      have hx3 : (3 : α) < x := by
        rcases not_and_or.mp hin with h | h
        · exact absurd (not_le.mp h) hlow
        · exact not_le.mp h
      refine ⟨max 30 (100 - pyInt ((x - 3) * 10)), rfl, by norm_num, ?_⟩
      have hp : (0 : ℤ) ≤ pyInt ((x - 3) * 10) := pyInt_nonneg (by nlinarith)
      exact max_le (by norm_num) (by omega)

theorem pyInt_avg_bounds {α : Type} [LinearOrderedField α] [FloorRing α] (l : List ℤ)
    (hne : l ≠ []) (hlow : ∀ x ∈ l, 0 ≤ x) (hhigh : ∀ x ∈ l, x ≤ 100) :
    ∃ a : α, fdiv (((l.sum : ℤ) : α)) ((l.length : α)) = some a ∧
      0 ≤ pyInt a ∧ pyInt a ≤ 100 := by
  have hlen : l.length ≠ 0 := fun h => hne (List.eq_nil_of_length_eq_zero h)
  have hlenpos : (0 : α) < (l.length : α) := by
    exact_mod_cast Nat.pos_of_ne_zero hlen
  have hlenne : ((l.length : ℕ) : α) ≠ 0 := ne_of_gt hlenpos
  have hsum0 : (0 : ℤ) ≤ l.sum := List.sum_nonneg hlow
  have hsum100 : l.sum ≤ (l.length : ℤ) * 100 := by
    have := List.sum_le_card_nsmul l 100 hhigh
    simpa [nsmul_eq_mul] using this
  refine ⟨((l.sum : ℤ) : α) / (l.length : α), by simp [fdiv, hlenne], ?_, ?_⟩
  · apply pyInt_nonneg
    apply div_nonneg _ (le_of_lt hlenpos)
    exact_mod_cast hsum0
  · apply pyInt_le_of_le
    rw [div_le_iff₀ hlenpos]
    have h1 : l.sum ≤ 100 * (l.length : ℤ) := by linarith [hsum100]
    have h2 : ((l.sum : ℤ) : α) ≤ ((100 * (l.length : ℤ) : ℤ) : α) := by exact_mod_cast h1
    push_cast at h2 ⊢
    linarith

/-- The trailing average-or-default block shared by the water-quality and
productivity scores (health.py 189-191 and 248-250). -/
theorem avgBlock_bounds {α : Type} [LinearOrderedField α] [FloorRing α] (l : List ℤ)
    (h : ∀ x ∈ l, 0 ≤ x ∧ x ≤ 100) :
    ∃ s, (if l = [] then (pure 70 : Option ℤ)
      else do
        let avg : α ← fdiv (((l.sum : ℤ) : α)) ((l.length : α))
        pure (pyInt avg)) = some s ∧ 0 ≤ s ∧ s ≤ 100 := by
  by_cases hne : l = []
  · exact ⟨70, by simp [hne], by norm_num, by norm_num⟩
  · obtain ⟨a, ha, h0, h100⟩ := pyInt_avg_bounds (α := α) l hne
      (fun x hx => (h x hx).1) (fun x hx => (h x hx).2)
    exact ⟨pyInt a, by rw [if_neg hne, ha]; rfl, h0, h100⟩

theorem calculateWaterQualityScore_bounds {α : Type} [LinearOrderedField α] [FloorRing α]
    (env : EnvironmentalData α) :
    ∃ s, calculateWaterQualityScore env = some s ∧ 0 ≤ s ∧ s ≤ 100 := by
  have hphB : ∀ y : α, 0 ≤ phSubScore y ∧ phSubScore y ≤ 100 := phSubScore_bounds
  have hsalB : ∀ z : α, 0 ≤ salinitySubScore z ∧ salinitySubScore z ≤ 100 :=
    salinitySubScore_bounds
  rcases hox : env.oxygen with _ | x <;> rcases hph : env.ph with _ | y <;>
    rcases hsal : env.salinity with _ | z
  · simp only [calculateWaterQualityScore, hox, hph, hsal, Option.pure_def, Option.some_bind,
      List.nil_append]
    exact avgBlock_bounds (α := α) [] (by simp)
  · simp only [calculateWaterQualityScore, hox, hph, hsal, Option.pure_def, Option.some_bind,
      List.nil_append]
    exact avgBlock_bounds (α := α) [salinitySubScore z] (by simpa using hsalB z)
  · simp only [calculateWaterQualityScore, hox, hph, hsal, Option.pure_def, Option.some_bind,
      List.nil_append, List.append_nil]
    exact avgBlock_bounds (α := α) [phSubScore y] (by simpa using hphB y)
  · simp only [calculateWaterQualityScore, hox, hph, hsal, Option.pure_def, Option.some_bind,
      List.nil_append, List.cons_append]
    exact avgBlock_bounds (α := α) [phSubScore y, salinitySubScore z]
      (by simp; exact ⟨hphB y, hsalB z⟩)
  · obtain ⟨s1, hs1, hb1⟩ := oxygenSubScore_bounds x
    simp only [calculateWaterQualityScore, hox, hph, hsal, hs1, Option.pure_def,
      Option.some_bind, List.append_nil, List.cons_append, List.nil_append]
    exact avgBlock_bounds (α := α) [s1] (by simpa using hb1)
  · obtain ⟨s1, hs1, hb1⟩ := oxygenSubScore_bounds x
    simp only [calculateWaterQualityScore, hox, hph, hsal, hs1, Option.pure_def,
      Option.some_bind, List.append_nil, List.cons_append, List.nil_append]
    exact avgBlock_bounds (α := α) [s1, salinitySubScore z] (by simp; exact ⟨hb1, hsalB z⟩)
  · obtain ⟨s1, hs1, hb1⟩ := oxygenSubScore_bounds x
    simp only [calculateWaterQualityScore, hox, hph, hsal, hs1, Option.pure_def,
      Option.some_bind, List.append_nil, List.cons_append, List.nil_append]
    exact avgBlock_bounds (α := α) [s1, phSubScore y] (by simp; exact ⟨hb1, hphB y⟩)
  · obtain ⟨s1, hs1, hb1⟩ := oxygenSubScore_bounds x
    simp only [calculateWaterQualityScore, hox, hph, hsal, hs1, Option.pure_def,
      Option.some_bind, List.append_nil, List.cons_append, List.nil_append]
    exact avgBlock_bounds (α := α) [s1, phSubScore y, salinitySubScore z]
      (by simp; exact ⟨hb1, hphB y, hsalB z⟩)

theorem calculateThermalStressScore_bounds {α : Type} [LinearOrderedField α] [FloorRing α]
    (env : EnvironmentalData α) :
    0 ≤ calculateThermalStressScore env ∧ calculateThermalStressScore env ≤ 100 := by
  rw [calculateThermalStressScore]
  rcases env.sst_anomaly with _ | a
  · norm_num
  · simp only
    split
    · norm_num
    · split
      · norm_num
      · split
        · norm_num
        · split
          · norm_num
          · constructor
            · exact le_max_left _ _
            · have : pyInt (100 - |a| * 40) ≤ (100 : ℤ) :=
                pyInt_le_of_le (by push_cast; nlinarith [abs_nonneg a])
              exact max_le (by norm_num) this

theorem calculateProductivityScore_bounds {α : Type} [LinearOrderedField α] [FloorRing α]
    (env : EnvironmentalData α) (species : SpeciesData α) :
    ∃ s, calculateProductivityScore env species = some s ∧ 0 ≤ s ∧ s ≤ 100 := by
  have hobs : 0 < species.total_observations →
      0 ≤ min 100 (pyInt ((species.total_observations : α) / 50)) ∧
      min 100 (pyInt ((species.total_observations : α) / 50)) ≤ 100 := by
    intro h
    constructor
    · refine le_min (by norm_num) (pyInt_nonneg ?_)
      have : (0 : α) < (species.total_observations : α) := by exact_mod_cast h
      positivity
    · exact min_le_left _ _
  have h50 : ((50 : α)) ≠ 0 := by norm_num
  rcases hchl : env.chlorophyll with _ | x <;>
    by_cases hob : 0 < species.total_observations
  · simp only [calculateProductivityScore, hchl, if_pos hob, fdiv, if_neg h50,
      Option.pure_def, Option.some_bind, List.nil_append]
    refine avgBlock_bounds (α := α)
      [min 100 (pyInt ((species.total_observations : α) / 50))] ?_
    intro v hv
    rw [List.mem_singleton.mp hv]
    exact hobs hob
  · simp only [calculateProductivityScore, hchl, if_neg hob, Option.pure_def,
      Option.some_bind, List.nil_append]
    exact avgBlock_bounds (α := α) [] (by simp)
  · obtain ⟨s1, hs1, hb1⟩ := chlorophyllSubScore_bounds x
    simp only [calculateProductivityScore, hchl, hs1, if_pos hob, fdiv, if_neg h50,
      Option.pure_def, Option.some_bind, List.cons_append, List.nil_append]
    refine avgBlock_bounds (α := α)
      [s1, min 100 (pyInt ((species.total_observations : α) / 50))] ?_
    intro v hv
    rcases List.mem_cons.mp hv with rfl | hv2
    · exact hb1
    · rw [List.mem_singleton.mp hv2]
      exact hobs hob
  · obtain ⟨s1, hs1, hb1⟩ := chlorophyllSubScore_bounds x
    simp only [calculateProductivityScore, hchl, hs1, if_neg hob, Option.pure_def,
      Option.some_bind, List.append_nil, List.cons_append, List.nil_append]
    exact avgBlock_bounds (α := α) [s1] (by simpa using hb1)

theorem calculateBiodiversityScore_bounds {α : Type} [LinearOrderedField α] [FloorRing α]
    (species : SpeciesData α) :
    ∃ s, calculateBiodiversityScore species = some s ∧ 0 ≤ s ∧ s ≤ 100 := by
  have hclamp : ∀ n : ℤ, 0 ≤ max 0 (min 100 n) ∧ max 0 (min 100 n) ≤ 100 := fun n =>
    ⟨le_max_left _ _, max_le (by norm_num) (min_le_left _ _)⟩
  by_cases h1 : 0 < species.total_species <;> by_cases h3 : 0 < species.total_observations
  · have hlog : ¬ (species.total_species + 1 ≤ 0) := by omega
    have hcast : ((species.total_observations : ℤ) : α) ≠ 0 :=
      Int.cast_ne_zero.mpr (by omega)
    have hcast2 : ((species.total_species : ℤ) : α) ≠ 0 :=
      Int.cast_ne_zero.mpr (by omega)
    simp only [calculateBiodiversityScore, if_pos h1, if_pos h3, log10Mul15Floor,
      if_neg hlog, fdiv, if_neg hcast, if_neg hcast2, Option.pure_def, Option.some_bind]
    exact ⟨_, rfl, (hclamp _).1, (hclamp _).2⟩
  · have hlog : ¬ (species.total_species + 1 ≤ 0) := by omega
    have hcast2 : ((species.total_species : ℤ) : α) ≠ 0 :=
      Int.cast_ne_zero.mpr (by omega)
    simp only [calculateBiodiversityScore, if_pos h1, if_neg h3, log10Mul15Floor,
      if_neg hlog, fdiv, if_neg hcast2, Option.pure_def, Option.some_bind]
    exact ⟨_, rfl, (hclamp _).1, (hclamp _).2⟩
  · have hcast : ((species.total_observations : ℤ) : α) ≠ 0 :=
      Int.cast_ne_zero.mpr (by omega)
    simp only [calculateBiodiversityScore, if_neg h1, if_pos h3, fdiv, if_neg hcast,
      Option.pure_def, Option.some_bind]
    exact ⟨_, rfl, (hclamp _).1, (hclamp _).2⟩
  · simp only [calculateBiodiversityScore, if_neg h1, if_neg h3, Option.pure_def,
      Option.some_bind]
    exact ⟨_, rfl, (hclamp _).1, (hclamp _).2⟩

theorem calculateConfidence_isSome {α : Type} (env : EnvironmentalData α)
    (species : SpeciesData α) : ∃ c, calculateConfidence env species = some c :=
  ⟨if (0.8 : ℚ) ≤ (dataPoints env species : ℚ) / 6 then ("high")
    else if (0.5 : ℚ) ≤ (dataPoints env species : ℚ) / 6 then ("medium")
    else ("low"), by simp [calculateConfidence, fdiv]⟩

theorem overallScore_bounds {α : Type} [LinearOrderedField α] [FloorRing α]
    (b w t p : ℤ) (hb : 0 ≤ b ∧ b ≤ 100) (hw : 0 ≤ w ∧ w ≤ 100)
    (ht : 0 ≤ t ∧ t ≤ 100) (hp : 0 ≤ p ∧ p ≤ 100) :
    0 ≤ overallScore (α := α) b w t p ∧ overallScore (α := α) b w t p ≤ 100 := by
  have hWb : ((WEIGHTS_biodiversity : ℚ) : α) = 3 / 10 := by
    norm_num [WEIGHTS_biodiversity]
  have hWw : ((WEIGHTS_water_quality : ℚ) : α) = 1 / 4 := by
    norm_num [WEIGHTS_water_quality]
  have hWt : ((WEIGHTS_thermal_stress : ℚ) : α) = 1 / 4 := by
    norm_num [WEIGHTS_thermal_stress]
  have hWp : ((WEIGHTS_productivity : ℚ) : α) = 1 / 5 := by
    norm_num [WEIGHTS_productivity]
  have hbq : (0 : α) ≤ (b : α) ∧ (b : α) ≤ 100 := by exact_mod_cast hb
  have hwq : (0 : α) ≤ (w : α) ∧ (w : α) ≤ 100 := by exact_mod_cast hw
  have htq : (0 : α) ≤ (t : α) ∧ (t : α) ≤ 100 := by exact_mod_cast ht
  have hpq : (0 : α) ≤ (p : α) ∧ (p : α) ≤ 100 := by exact_mod_cast hp
  rw [overallScore, hWb, hWw, hWt, hWp]
  constructor
  · exact le_pyInt_of_le (by push_cast; nlinarith [hbq.1, hwq.1, htq.1, hpq.1])
  · exact pyInt_le_of_le (by push_cast; nlinarith [hbq.2, hwq.2, htq.2, hpq.2])

/-- C1: on every SpeciesData and EnvironmentalData input, including
inconsistent ones (threatened > total species, recent > total
observations, negative counts), the health calculation runs to
completion (every guarded division has a nonzero denominator, every
logarithm a positive argument) and all four sub-scores and the overall
score lie in [0, 100]. -/
theorem calculateHealthScore_total_and_bounded {α : Type} [LinearOrderedField α]
    [FloorRing α] (env : EnvironmentalData α) (species : SpeciesData α) :
    ∃ hc, calculateHealthScore env species = some hc ∧
      0 ≤ hc.biodiversity ∧ hc.biodiversity ≤ 100 ∧
      0 ≤ hc.water_quality ∧ hc.water_quality ≤ 100 ∧
      0 ≤ hc.thermal_stress ∧ hc.thermal_stress ≤ 100 ∧
      0 ≤ hc.productivity ∧ hc.productivity ≤ 100 ∧
      0 ≤ hc.score ∧ hc.score ≤ 100 := by
  obtain ⟨b, hb, hb0, hb1⟩ := calculateBiodiversityScore_bounds species
  obtain ⟨w, hw, hw0, hw1⟩ := calculateWaterQualityScore_bounds env
  obtain ⟨ht0, ht1⟩ := calculateThermalStressScore_bounds env
  obtain ⟨p, hp, hp0, hp1⟩ := calculateProductivityScore_bounds env species
  obtain ⟨c, hconf⟩ := calculateConfidence_isSome env species
  obtain ⟨ho0, ho1⟩ := overallScore_bounds (α := α) b w (calculateThermalStressScore env) p
    ⟨hb0, hb1⟩ ⟨hw0, hw1⟩ ⟨ht0, ht1⟩ ⟨hp0, hp1⟩
  refine ⟨⟨b, w, calculateThermalStressScore env, p,
      overallScore (α := α) b w (calculateThermalStressScore env) p, c,
      ("obis") :: (if env.sst.isSome then [("copernicus")] else [])⟩, ?_,
    hb0, hb1, hw0, hw1, ht0, ht1, hp0, hp1, ho0, ho1⟩
  simp only [calculateHealthScore, hb, hw, hp, hconf, Option.pure_def, Option.some_bind]
  rfl

end OceanPulse
